import Mathlib

/-!
Verification of the realizations orchestrator of the IMPROVER repository
(`improver/cli/generate_realizations.py`, function `process`), together with a
spec-modelled account of the per-point Ensemble Copula Coupling reordering step
(`EnsembleReordering`), whose implementation lives outside the sources available
here.

The orchestrator is pure routing over an input cube: it inspects the cube's
coordinates, resolves the target realizations count, runs one of two
percentile-producing converters, and finishes with either ensemble reordering
(when a raw reference ensemble is supplied) or rebadging.  The four plugin
classes it dispatches to, and the `is_probability` classifier, are external
collaborators; we model them as an abstract record of functions so every
theorem quantifies over their behaviour.
-/

namespace Improver

/-- Errors a call can surface.  `valueError` models Python's `ValueError`;
`coordinateNotFoundError` models iris's `CoordinateNotFoundError`, raised by
`Cube.coord(name)` when no (or no unique) coordinate of that name exists. -/
inductive PyError where
  | valueError (msg : String)
  | coordinateNotFoundError (coordName : String)
  deriving DecidableEq, Repr

/-- A named coordinate of a cube: its name and its points.  Realization
coordinates carry integer labels; only the name and the number of points matter
to the orchestrator. -/
structure Coord where
  name : String
  points : List Int
  deriving DecidableEq, Repr

/-- An iris cube, as far as the orchestrator observes it: its coordinates, an
opaque data payload (used only for equality of cubes), and its printed form
(Python's `str(cube)`, interpolated into one error message). -/
structure Cube where
  coords : List Coord
  data : List Int
  printed : String
  deriving DecidableEq, Repr

/-- iris `Cube.coords(name)`: the list of all coordinates of the cube carrying
the given name.  In Python the call site tests its truthiness, i.e. whether
the list is non-empty. -/
def Cube.coordsNamed (c : Cube) (n : String) : List Coord :=
  c.coords.filter (fun co => co.name == n)

/-- iris `Cube.coord(name)`: the unique coordinate of the given name, raising
`CoordinateNotFoundError` when there is not exactly one match. -/
def Cube.coordNamed (c : Cube) (n : String) : Except PyError Coord :=
  match c.coordsNamed n with
  | [co] => Except.ok co
  | _ => Except.error (PyError.coordinateNotFoundError n)

/-- The external collaborators `process` dispatches to.  Each of
`ResamplePercentiles` and `ConvertProbabilitiesToPercentiles` is applied as
`Plugin(ecc_bounds_warning, skip_ecc_bounds)(cube, no_of_percentiles)`;
`EnsembleReordering` as `Plugin()(percentiles, raw_cube, random_seed,
tie_break)`; `RebadgePercentilesAsRealizations` as `Plugin()(percentiles)`.
`is_probability` is the metadata classifier.  All are abstract here: the
orchestrator theorems hold for every behaviour of these collaborators. -/
structure Plugins where
  resamplePercentiles : Bool → Bool → Cube → Nat → Except PyError Cube
  convertProbabilitiesToPercentiles : Bool → Bool → Cube → Nat → Except PyError Cube
  ensembleReordering : Cube → Cube → Option Int → String → Except PyError Cube
  rebadgePercentilesAsRealizations : Cube → Except PyError Cube
  is_probability : Cube → Bool

/-- Lines 77-83 of `generate_realizations.py`: resolve the realizations count.
An explicit `realizations_count` is used as is; otherwise
`len(raw_cube.coord("realization").points)` is attempted inside a
`try/except AttributeError`: when `raw_cube` is `None` the attribute access
raises `AttributeError`, which is caught and converted into the documented
`ValueError`; when `raw_cube` is a cube without a "realization" coordinate,
`Cube.coord` raises `CoordinateNotFoundError` (a `KeyError`, not an
`AttributeError`), which propagates. -/
def resolveRealizationsCount (realizations_count : Option Nat)
    (raw_cube : Option Cube) : Except PyError Nat :=
  match realizations_count with
  | some n => Except.ok n
  | none =>
    match raw_cube with
    | none =>
      Except.error
        (PyError.valueError "Either realizations_count or raw_cube must be provided")
    | some rc =>
      match rc.coordNamed "realization" with
      | Except.ok co => Except.ok co.points.length
      | Except.error e => Except.error e

/-- The default value of the `tie_break` keyword argument of `process`
(line 17 of `generate_realizations.py`). -/
def tieBreakDefault : String := "random"

/-- `process` of `improver/cli/generate_realizations.py` (lines 71-103 of the
source body): return the cube unchanged if it already has a "realization"
coordinate; otherwise require a "percentile" coordinate or a probability cube;
resolve the realizations count; convert to percentiles via
`ResamplePercentiles` (percentile input) or
`ConvertProbabilitiesToPercentiles` (probability input), forwarding
`ignore_ecc_bounds_exceedance` as `ecc_bounds_warning` and `skip_ecc_bounds`
unchanged; finally reorder against `raw_cube` when one is supplied, else
rebadge percentiles as realizations. -/
def process (P : Plugins) (cube : Cube) (raw_cube : Option Cube)
    (realizations_count : Option Nat) (random_seed : Option Int)
    (tie_break : String) (ignore_ecc_bounds_exceedance : Bool)
    (skip_ecc_bounds : Bool) : Except PyError Cube :=
  if !(cube.coordsNamed "realization").isEmpty then
    Except.ok cube
  else if (cube.coordsNamed "percentile").isEmpty && !(P.is_probability cube) then
    Except.error
      (PyError.valueError ("Unable to convert to realizations:\n" ++ cube.printed))
  else
    match resolveRealizationsCount realizations_count raw_cube with
    | Except.error e => Except.error e
    | Except.ok n =>
      match
        (if !(cube.coordsNamed "percentile").isEmpty then
          P.resamplePercentiles ignore_ecc_bounds_exceedance skip_ecc_bounds cube n
        else
          P.convertProbabilitiesToPercentiles ignore_ecc_bounds_exceedance
            skip_ecc_bounds cube n) with
      | Except.error e => Except.error e
      | Except.ok percentiles =>
        match raw_cube with
        | some rc => P.ensembleReordering percentiles rc random_seed tie_break
        | none => P.rebadgePercentilesAsRealizations percentiles

/-- A concrete plugin record used only to instantiate theorems on closed
inputs: each converter returns its input cube, reordering returns the raw
cube, and every cube is classified as a probability cube. -/
def testPlugins : Plugins :=
  ⟨fun _ _ c _ => Except.ok c,
   fun _ _ c _ => Except.ok c,
   fun _ rc _ _ => Except.ok rc,
   fun c => Except.ok c,
   fun _ => true⟩

/-- A cube that already carries a realization coordinate. -/
def realCube : Cube := ⟨[⟨"realization", [0, 1, 2]⟩], [10, 20, 30], "realCube"⟩

/-- A percentile cube. -/
def percCube : Cube := ⟨[⟨"percentile", [25, 50, 75]⟩], [1, 2, 3], "percCube"⟩

/-- A raw ensemble cube with three realizations. -/
def rawCube : Cube := ⟨[⟨"realization", [0, 1, 2]⟩], [5, 3, 9], "rawCube"⟩

/-- A cube with neither realization nor percentile coordinate; whether it is a
probability cube is decided by the `is_probability` collaborator. -/
def probCube : Cube := ⟨[⟨"air_temperature", [275]⟩], [1], "probCube"⟩

/-- A cube that is neither a percentile nor (for `neverProbability` plugins)
a probability cube. -/
def plainCube : Cube := ⟨[⟨"latitude", [0]⟩], [5], "plainCube"⟩

/-- Like `testPlugins` but classifying no cube as a probability cube. -/
def neverProbPlugins : Plugins :=
  ⟨fun _ _ c _ => Except.ok c,
   fun _ _ c _ => Except.ok c,
   fun _ rc _ _ => Except.ok rc,
   fun c => Except.ok c,
   fun _ => false⟩

/-- C1: a cube that already has a "realization" coordinate is returned
unchanged, with no error, for every plugin behaviour and all remaining
arguments: the realization check precedes all other validation. -/
theorem process_realization_is_noop (P : Plugins) (cube : Cube)
    (raw_cube : Option Cube) (realizations_count : Option Nat)
    (random_seed : Option Int) (tie_break : String)
    (ignore_ecc_bounds_exceedance skip_ecc_bounds : Bool)
    (h : (cube.coordsNamed "realization").isEmpty = false) :
    process P cube raw_cube realizations_count random_seed tie_break
      ignore_ecc_bounds_exceedance skip_ecc_bounds = Except.ok cube := by
  simp [process, h]

/-- Witness for C1: `realCube` has a realization coordinate and is returned
unchanged even with every other argument at an arbitrary value. -/
theorem process_realization_is_noop_witness :
    (realCube.coordsNamed "realization").isEmpty = false ∧
    process testPlugins realCube (some rawCube) (some 7) (some 42) "bogus"
      true true = Except.ok realCube :=
  ⟨by decide,
   process_realization_is_noop testPlugins realCube (some rawCube) (some 7)
     (some 42) "bogus" true true (by decide)⟩

/-- C5: a cube with no "realization" coordinate, no "percentile" coordinate,
and not classified as a probability cube makes `process` raise `ValueError`.
The equation holds for every plugin record, so no conversion plugin is ever
consulted: the error is raised before any conversion is attempted. -/
theorem process_invalid_kind_raises (P : Plugins) (cube : Cube)
    (raw_cube : Option Cube) (realizations_count : Option Nat)
    (random_seed : Option Int) (tie_break : String)
    (ignore_ecc_bounds_exceedance skip_ecc_bounds : Bool)
    (hR : (cube.coordsNamed "realization").isEmpty = true)
    (hP : (cube.coordsNamed "percentile").isEmpty = true)
    (hprob : P.is_probability cube = false) :
    process P cube raw_cube realizations_count random_seed tie_break
      ignore_ecc_bounds_exceedance skip_ecc_bounds =
      Except.error (PyError.valueError
        ("Unable to convert to realizations:\n" ++ cube.printed)) := by
  simp [process, hR, hP, hprob]

/-- Witness for C5: `plainCube` has neither coordinate and `neverProbPlugins`
classifies nothing as a probability cube, so `process` raises `ValueError`. -/
theorem process_invalid_kind_raises_witness :
    (plainCube.coordsNamed "realization").isEmpty = true ∧
    (plainCube.coordsNamed "percentile").isEmpty = true ∧
    neverProbPlugins.is_probability plainCube = false ∧
    process neverProbPlugins plainCube (some rawCube) (some 3) none "random"
      false false =
      Except.error (PyError.valueError
        ("Unable to convert to realizations:\n" ++ plainCube.printed)) :=
  ⟨by decide, by decide, by decide,
   process_invalid_kind_raises neverProbPlugins plainCube (some rawCube)
     (some 3) none "random" false false (by decide) (by decide) (by decide)⟩

/-- C6: resolution of the realizations count for every cube needing
conversion — a percentile cube or a probability cube.  First conjunct: an
explicit `realizations_count` takes priority — whatever `raw_cube` is, the
route-selected converter receives exactly `n`.  Second conjunct: with no
explicit count, the converter receives the length of `raw_cube`'s
"realization" coordinate points.  Third conjunct: with neither, `process`
raises `ValueError` with the documented message. -/
theorem process_realizations_count_resolution (P : Plugins) (cube : Cube)
    (hR : (cube.coordsNamed "realization").isEmpty = true)
    (hval : (cube.coordsNamed "percentile").isEmpty = false ∨
      P.is_probability cube = true) :
    (∀ (n : Nat) (raw_cube : Option Cube) (seed : Option Int) (tb : String)
       (ig sk : Bool),
       process P cube raw_cube (some n) seed tb ig sk =
         match
           (if (cube.coordsNamed "percentile").isEmpty = false then
             P.resamplePercentiles ig sk cube n
           else
             P.convertProbabilitiesToPercentiles ig sk cube n) with
         | Except.error e => Except.error e
         | Except.ok pc =>
           match raw_cube with
           | some rc => P.ensembleReordering pc rc seed tb
           | none => P.rebadgePercentilesAsRealizations pc) ∧
    (∀ (rc : Cube) (co : Coord), rc.coordNamed "realization" = Except.ok co →
       ∀ (seed : Option Int) (tb : String) (ig sk : Bool),
       process P cube (some rc) none seed tb ig sk =
         match
           (if (cube.coordsNamed "percentile").isEmpty = false then
             P.resamplePercentiles ig sk cube co.points.length
           else
             P.convertProbabilitiesToPercentiles ig sk cube
               co.points.length) with
         | Except.error e => Except.error e
         | Except.ok pc => P.ensembleReordering pc rc seed tb) ∧
    (∀ (seed : Option Int) (tb : String) (ig sk : Bool),
       process P cube none none seed tb ig sk =
         Except.error (PyError.valueError
           "Either realizations_count or raw_cube must be provided")) := by
  have hv : (cube.coordsNamed "percentile").isEmpty = false ∨
      ((cube.coordsNamed "percentile").isEmpty = true ∧
        P.is_probability cube = true) := by
    rcases h : (cube.coordsNamed "percentile").isEmpty
    · exact Or.inl rfl
    · rcases hval with hP | hprob
      · rw [h] at hP
        exact absurd hP (by simp)
      · exact Or.inr ⟨rfl, hprob⟩
  refine ⟨?_, ?_, ?_⟩
  · intro n raw_cube seed tb ig sk
    rcases hv with hP | ⟨hP, hprob⟩
    · simp [process, hR, hP, resolveRealizationsCount]
    · simp [process, hR, hP, hprob, resolveRealizationsCount]
  · intro rc co hco seed tb ig sk
    rcases hv with hP | ⟨hP, hprob⟩
    · simp [process, hR, hP, resolveRealizationsCount, hco]
    · simp [process, hR, hP, hprob, resolveRealizationsCount, hco]
  · intro seed tb ig sk
    rcases hv with hP | ⟨hP, hprob⟩
    · simp [process, hR, hP, resolveRealizationsCount]
    · simp [process, hR, hP, hprob, resolveRealizationsCount]

/-- Witness for C6: `probCube` (a probability cube needing conversion) with
neither count source provided makes `process` raise the documented
`ValueError`. -/
theorem process_realizations_count_resolution_witness :
    (probCube.coordsNamed "realization").isEmpty = true ∧
    ((probCube.coordsNamed "percentile").isEmpty = false ∨
      testPlugins.is_probability probCube = true) ∧
    process testPlugins probCube none none none "random" false false =
      Except.error (PyError.valueError
        "Either realizations_count or raw_cube must be provided") :=
  ⟨by decide, Or.inr rfl,
   (process_realizations_count_resolution testPlugins probCube (by decide)
     (Or.inr rfl)).2.2 none "random" false false⟩

/-- C8: with `realizations_count = None` and a `raw_cube` that lacks a
"realization" coordinate, the `CoordinateNotFoundError` raised by
`raw_cube.coord("realization")` propagates unconverted: only `AttributeError`
(the `raw_cube is None` case) is caught, so the documented `ValueError`
"Either realizations_count or raw_cube must be provided" is not raised. -/
theorem process_propagates_coordinate_not_found (P : Plugins) (cube rc : Cube)
    (seed : Option Int) (tb : String) (ig sk : Bool)
    (hR : (cube.coordsNamed "realization").isEmpty = true)
    (hval : (cube.coordsNamed "percentile").isEmpty = false ∨
      P.is_probability cube = true)
    (hraw : rc.coordsNamed "realization" = []) :
    process P cube (some rc) none seed tb ig sk =
      Except.error (PyError.coordinateNotFoundError "realization") := by
  rcases hval with hP | hprob
  · simp [process, hR, hP, resolveRealizationsCount, Cube.coordNamed, hraw]
  · rcases hP : (cube.coordsNamed "percentile").isEmpty with _ | _ <;>
      simp [process, hR, hP, hprob, resolveRealizationsCount, Cube.coordNamed,
        hraw]

/-- Witness for C8: `percCube` with raw cube `plainCube` (which has no
"realization" coordinate) and no explicit count yields the propagated
`CoordinateNotFoundError`, not the documented `ValueError`. -/
theorem process_propagates_coordinate_not_found_witness :
    (percCube.coordsNamed "realization").isEmpty = true ∧
    ((percCube.coordsNamed "percentile").isEmpty = false ∨
      neverProbPlugins.is_probability percCube = true) ∧
    plainCube.coordsNamed "realization" = [] ∧
    process neverProbPlugins percCube (some plainCube) none none "random"
      false false =
      Except.error (PyError.coordinateNotFoundError "realization") :=
  ⟨by decide, Or.inl (by decide), by decide,
   process_propagates_coordinate_not_found neverProbPlugins percCube plainCube
     none "random" false false (by decide) (Or.inl (by decide)) (by decide)⟩

/-- Helper shared by the seed/tie-break insensitivity results: with no raw
cube, the `random_seed` and `tie_break` arguments never reach any branch that
is executed, so the result is unchanged when they vary. -/
theorem process_no_raw_seed_tb_irrelevant (P : Plugins) (cube : Cube)
    (cnt : Option Nat) (s1 s2 : Option Int) (t1 t2 : String) (ig sk : Bool) :
    process P cube none cnt s1 t1 ig sk = process P cube none cnt s2 t2 ig sk :=
  rfl

/-- C9: when `raw_cube` is `None`, two calls to `process` identical except in
`random_seed` and/or `tie_break` return equal outputs, for every plugin
behaviour and every cube: the rebadging path never reads those arguments. -/
theorem process_rebadge_ignores_seed_and_tie_break (P : Plugins) (cube : Cube)
    (realizations_count : Option Nat) (s1 s2 : Option Int) (t1 t2 : String)
    (ignore_ecc_bounds_exceedance skip_ecc_bounds : Bool) :
    process P cube none realizations_count s1 t1 ignore_ecc_bounds_exceedance
        skip_ecc_bounds =
      process P cube none realizations_count s2 t2
        ignore_ecc_bounds_exceedance skip_ecc_bounds :=
  process_no_raw_seed_tb_irrelevant P cube realizations_count s1 s2 t1 t2
    ignore_ecc_bounds_exceedance skip_ecc_bounds

/-- C2: for a cube needing conversion, the intermediate percentile cube is
obtained by exactly one of two routes selected on the cube's kind — a
"percentile" coordinate routes to `ResamplePercentiles`, otherwise (a
probability cube) to `ConvertProbabilitiesToPercentiles` — and in both routes
the percentile count passed is exactly the resolved realizations count. -/
theorem process_conversion_route (P : Plugins) (cube : Cube)
    (raw_cube : Option Cube) (realizations_count : Option Nat) (n : Nat)
    (seed : Option Int) (tb : String) (ig sk : Bool)
    (hR : (cube.coordsNamed "realization").isEmpty = true)
    (hn : resolveRealizationsCount realizations_count raw_cube = Except.ok n) :
    ((cube.coordsNamed "percentile").isEmpty = false →
      process P cube raw_cube realizations_count seed tb ig sk =
        match P.resamplePercentiles ig sk cube n with
        | Except.error e => Except.error e
        | Except.ok pc =>
          match raw_cube with
          | some rc => P.ensembleReordering pc rc seed tb
          | none => P.rebadgePercentilesAsRealizations pc) ∧
    ((cube.coordsNamed "percentile").isEmpty = true →
      P.is_probability cube = true →
      process P cube raw_cube realizations_count seed tb ig sk =
        match P.convertProbabilitiesToPercentiles ig sk cube n with
        | Except.error e => Except.error e
        | Except.ok pc =>
          match raw_cube with
          | some rc => P.ensembleReordering pc rc seed tb
          | none => P.rebadgePercentilesAsRealizations pc) := by
  constructor
  · intro hP
    simp [process, hR, hP, hn]
    cases P.resamplePercentiles ig sk cube n <;> cases raw_cube <;> rfl
  · intro hP hprob
    simp [process, hR, hP, hprob, hn]
    cases P.convertProbabilitiesToPercentiles ig sk cube n <;>
      cases raw_cube <;> rfl

/-- Witness for C2: `percCube` with an explicit count of 3 routes through
`ResamplePercentiles` (which `testPlugins` makes the identity) and, with no
raw cube, finishes as `Except.ok percCube` via rebadging. -/
theorem process_conversion_route_witness :
    (percCube.coordsNamed "realization").isEmpty = true ∧
    resolveRealizationsCount (some 3) none = Except.ok 3 ∧
    (percCube.coordsNamed "percentile").isEmpty = false ∧
    process testPlugins percCube none (some 3) none "random" false false =
      Except.ok percCube :=
  ⟨by decide, rfl, by decide,
   (process_conversion_route testPlugins percCube none (some 3) 3 none
     "random" false false (by decide) rfl).1 (by decide)⟩

/-- C3: once the intermediate percentile cube `pc` is obtained, the final
stage is chosen solely by whether `raw_cube` is supplied: a supplied raw cube
yields `EnsembleReordering` applied to `pc`, the raw cube, `random_seed` and
`tie_break` (whose declared default is "random"); an absent raw cube yields
`RebadgePercentilesAsRealizations` applied to `pc`. -/
theorem process_final_stage_selection (P : Plugins) (cube pc : Cube)
    (realizations_count : Option Nat) (n : Nat) (seed : Option Int)
    (tb : String) (ig sk : Bool)
    (hR : (cube.coordsNamed "realization").isEmpty = true)
    (hconv : ((cube.coordsNamed "percentile").isEmpty = false ∧
        P.resamplePercentiles ig sk cube n = Except.ok pc) ∨
      ((cube.coordsNamed "percentile").isEmpty = true ∧
        P.is_probability cube = true ∧
        P.convertProbabilitiesToPercentiles ig sk cube n = Except.ok pc)) :
    (∀ rc : Cube,
      resolveRealizationsCount realizations_count (some rc) = Except.ok n →
      process P cube (some rc) realizations_count seed tb ig sk =
        P.ensembleReordering pc rc seed tb) ∧
    (resolveRealizationsCount realizations_count none = Except.ok n →
      process P cube none realizations_count seed tb ig sk =
        P.rebadgePercentilesAsRealizations pc) ∧
    tieBreakDefault = "random" := by
  refine ⟨?_, ?_, rfl⟩
  · intro rc hn
    rcases hconv with ⟨hP, hres⟩ | ⟨hP, hprob, hres⟩
    · simp [process, hR, hP, hn, hres]
    · simp [process, hR, hP, hprob, hn, hres]
  · intro hn
    rcases hconv with ⟨hP, hres⟩ | ⟨hP, hprob, hres⟩
    · simp [process, hR, hP, hn, hres]
    · simp [process, hR, hP, hprob, hn, hres]

/-- Witness for C3: with `rawCube` supplied, `process` on `percCube` ends in
`EnsembleReordering` (which `testPlugins` makes return the raw cube). -/
theorem process_final_stage_selection_witness :
    (percCube.coordsNamed "realization").isEmpty = true ∧
    ((percCube.coordsNamed "percentile").isEmpty = false ∧
      testPlugins.resamplePercentiles false false percCube 3 =
        Except.ok percCube) ∧
    resolveRealizationsCount (some 3) (some rawCube) = Except.ok 3 ∧
    process testPlugins percCube (some rawCube) (some 3) none "random"
      false false = Except.ok rawCube :=
  ⟨by decide, ⟨by decide, rfl⟩, rfl,
   (process_final_stage_selection testPlugins percCube percCube (some 3) 3
     none "random" false false (by decide)
     (Or.inl ⟨by decide, rfl⟩)).1 rawCube rfl⟩

/-- Modelled from the spec: the ECC-bounds exceedance policy inside the
`ResamplePercentiles` and `ConvertProbabilitiesToPercentiles` plugins (spec
sections 4.3 and 7), whose implementation is not among the available sources.
When the source data exceeds the configured ECC bounds the conversion fails
with `ValueError` by default; when `ecc_bounds_warning` is set it instead
emits a warning (`true` in the result) and continues. -/
def eccBoundsPolicy (ecc_bounds_warning exceeds_bounds : Bool) :
    Except PyError Bool :=
  if exceeds_bounds then
    if ecc_bounds_warning then Except.ok true
    else Except.error (PyError.valueError "ECC bounds exceeded")
  else Except.ok false

/-- C7: bounds exceedance is by default a hard failure of the conversion step
and `ecc_bounds_warning = true` downgrades it to a warning (first conjunct,
against the spec-modelled policy); and the orchestrator forwards
`ignore_ecc_bounds_exceedance` as `ecc_bounds_warning` (first argument) and
`skip_ecc_bounds` unchanged (second argument) to whichever of
`ResamplePercentiles` or `ConvertProbabilitiesToPercentiles` is invoked
(remaining conjuncts, for every value of both flags). -/
theorem process_forwards_ecc_flags (P : Plugins) (cube : Cube)
    (raw_cube : Option Cube) (realizations_count : Option Nat) (n : Nat)
    (seed : Option Int) (tb : String)
    (hR : (cube.coordsNamed "realization").isEmpty = true)
    (hn : resolveRealizationsCount realizations_count raw_cube = Except.ok n) :
    (eccBoundsPolicy false true =
        Except.error (PyError.valueError "ECC bounds exceeded") ∧
      eccBoundsPolicy true true = Except.ok true ∧
      ∀ w : Bool, eccBoundsPolicy w false = Except.ok false) ∧
    (∀ ig sk : Bool, (cube.coordsNamed "percentile").isEmpty = false →
      process P cube raw_cube realizations_count seed tb ig sk =
        match P.resamplePercentiles ig sk cube n with
        | Except.error e => Except.error e
        | Except.ok pc =>
          match raw_cube with
          | some rc => P.ensembleReordering pc rc seed tb
          | none => P.rebadgePercentilesAsRealizations pc) ∧
    (∀ ig sk : Bool, (cube.coordsNamed "percentile").isEmpty = true →
      P.is_probability cube = true →
      process P cube raw_cube realizations_count seed tb ig sk =
        match P.convertProbabilitiesToPercentiles ig sk cube n with
        | Except.error e => Except.error e
        | Except.ok pc =>
          match raw_cube with
          | some rc => P.ensembleReordering pc rc seed tb
          | none => P.rebadgePercentilesAsRealizations pc) := by
  refine ⟨⟨rfl, rfl, fun w => rfl⟩, ?_, ?_⟩
  · intro ig sk hP
    simp [process, hR, hP, hn]
    cases P.resamplePercentiles ig sk cube n <;> cases raw_cube <;> rfl
  · intro ig sk hP hprob
    simp [process, hR, hP, hprob, hn]
    cases P.convertProbabilitiesToPercentiles ig sk cube n <;>
      cases raw_cube <;> rfl

/-- Witness for C7: with both flags set, `process` on `percCube` still goes
through `ResamplePercentiles` called at exactly those flag values. -/
theorem process_forwards_ecc_flags_witness :
    (percCube.coordsNamed "realization").isEmpty = true ∧
    resolveRealizationsCount (some 3) none = Except.ok 3 ∧
    process testPlugins percCube none (some 3) none "random" true true =
      Except.ok percCube :=
  ⟨by decide, rfl,
   (process_forwards_ecc_flags testPlugins percCube none (some 3) 3 none
     "random" (by decide) rfl).2.1 true true (by decide)⟩

/-- C10: the orchestrator performs no validation of `tie_break`: every string
value, recognized or not, is forwarded unchanged to `EnsembleReordering` when
`raw_cube` is supplied (first conjunct, with `tb` universally quantified), and
is ignored when it is not (second conjunct), so `process` itself never raises
a configuration error for a mismatched tie-break option value. -/
theorem process_tie_break_unvalidated (P : Plugins) (cube pc : Cube)
    (realizations_count : Option Nat) (n : Nat) (seed : Option Int)
    (ig sk : Bool)
    (hR : (cube.coordsNamed "realization").isEmpty = true)
    (hconv : ((cube.coordsNamed "percentile").isEmpty = false ∧
        P.resamplePercentiles ig sk cube n = Except.ok pc) ∨
      ((cube.coordsNamed "percentile").isEmpty = true ∧
        P.is_probability cube = true ∧
        P.convertProbabilitiesToPercentiles ig sk cube n = Except.ok pc)) :
    (∀ (tb : String) (rc : Cube),
      resolveRealizationsCount realizations_count (some rc) = Except.ok n →
      process P cube (some rc) realizations_count seed tb ig sk =
        P.ensembleReordering pc rc seed tb) ∧
    (∀ t1 t2 : String,
      process P cube none realizations_count seed t1 ig sk =
        process P cube none realizations_count seed t2 ig sk) := by
  constructor
  · intro tb rc hn
    rcases hconv with ⟨hP, hres⟩ | ⟨hP, hprob, hres⟩
    · simp [process, hR, hP, hn, hres]
    · simp [process, hR, hP, hprob, hn, hres]
  · intro t1 t2
    exact process_no_raw_seed_tb_irrelevant P cube realizations_count seed
      seed t1 t2 ig sk

/-- Witness for C10: an unrecognized tie-break string is forwarded unchanged
to `EnsembleReordering` and `process` raises no error for it. -/
theorem process_tie_break_unvalidated_witness :
    (percCube.coordsNamed "realization").isEmpty = true ∧
    resolveRealizationsCount (some 3) (some rawCube) = Except.ok 3 ∧
    process testPlugins percCube (some rawCube) (some 3) none
      "not-a-real-option" false false = Except.ok rawCube :=
  ⟨by decide, rfl,
   (process_tie_break_unvalidated testPlugins percCube percCube (some 3) 3
     none false false (by decide) (Or.inl ⟨by decide, rfl⟩)).1
     "not-a-real-option" rawCube rfl⟩

/-- Modelled from the spec: the rank permutation of the reference vector `R`
computed by `EnsembleReordering` at one spatial point (spec section 4.4, step
2), whose implementation is not among the available sources.  The result lists
the member indices in ascending order of their reference values; ties are
broken by a strict key `tiekey` over indices ("realization" tie-break uses the
index itself, "random" uses a seeded random permutation of the indices). -/
def rankOrder (R : List Int) (tiekey : Nat → Nat) : List Nat :=
  List.insertionSort
    (fun i j => R.getD i 0 < R.getD j 0 ∨
      (R.getD i 0 = R.getD j 0 ∧ tiekey i ≤ tiekey j))
    (List.range R.length)

/-- Modelled from the spec: the tie key of tie_break="realization" (spec
section 4.4): ties are resolved in index order, so the highest member index
among tied values receives the highest rank. -/
def realizationTieKey : Nat → Nat := id

/-- Modelled from the spec: `EnsembleReordering` at one spatial point (spec
section 4.4, steps 3-4), whose implementation is not among the available
sources.  The percentile-axis values `V` are sorted ascending and the k-th
smallest value of `V` is assigned to the member index holding the k-th
smallest reference value, i.e. to position `rankOrder R tiekey k`.  The
scatter is realised by sorting the (index, value) pairs back into index
order. -/
def reorderPoint (V R : List Int) (tiekey : Nat → Nat) : List Int :=
  (List.insertionSort (fun a b => a.1 ≤ b.1)
    ((rankOrder R tiekey).zip
      (List.insertionSort (fun a b => a ≤ b) V))).map Prod.snd

/-- Sanity lemma: the spec's section 8 scenario.  Reordering percentile values
[1, 2, 3] against the raw ensemble [5, 3, 9] with the "realization" tie-break
assigns member 0 the value 2, member 1 the value 1 and member 2 the value 3. -/
theorem reorderPoint_spec_scenario :
    reorderPoint [1, 2, 3] [5, 3, 9] realizationTieKey = [2, 1, 3] := by
  decide

/-- C4: rank preservation of the (spec-modelled) per-point reordering: at
every spatial point, whenever the percentile vector and the reference vector
have the same length, the multiset of output realization values equals the
multiset of input percentile-cube values — the output is a permutation of the
inputs, never a newly interpolated value — for every tie-break key, hence for
both tie-break policies. -/
theorem reorderPoint_preserves_multiset (V R : List Int) (tiekey : Nat → Nat)
    (h : V.length = R.length) :
    (reorderPoint V R tiekey : Multiset Int) = (V : Multiset Int) := by
  rw [Multiset.coe_eq_coe]
  unfold reorderPoint
  have hlen : (List.insertionSort (fun a b => a ≤ b) V).length ≤
      (rankOrder R tiekey).length := by
    simp [rankOrder, List.length_insertionSort, h]
  have h2 : ((rankOrder R tiekey).zip
      (List.insertionSort (fun a b => a ≤ b) V)).map Prod.snd =
      List.insertionSort (fun a b => a ≤ b) V :=
    List.map_snd_zip _ _ hlen
  have hp := (List.perm_insertionSort (fun a b : Nat × Int => a.1 ≤ b.1)
    ((rankOrder R tiekey).zip (List.insertionSort (fun a b => a ≤ b) V))).map
      Prod.snd
  rw [h2] at hp
  exact hp.trans (List.perm_insertionSort (fun a b => a ≤ b) V)

/-- Witness for C4: the spec's section 8 vectors have equal length and the
reordered output [2, 1, 3] is a permutation of the percentile values
[1, 2, 3]. -/
theorem reorderPoint_preserves_multiset_witness :
    ([1, 2, 3] : List Int).length = ([5, 3, 9] : List Int).length ∧
    (reorderPoint [1, 2, 3] [5, 3, 9] realizationTieKey : Multiset Int) =
      (([1, 2, 3] : List Int) : Multiset Int) :=
  ⟨rfl,
   reorderPoint_preserves_multiset [1, 2, 3] [5, 3, 9] realizationTieKey rfl⟩

end Improver
